import Mathlib

/-!
Verification of the flick-kiosk-web payment kiosk client.

Shallow embedding of:
- the cart store (stores/cart, zustand): addItem, updateQuantity, clearCart,
  getTotalAmount, getTotalItems;
- the payment screen (pages/qr-scanner.tsx, PaymentScreen component):
  validateStudentId, ERROR_MESSAGES mapping, renderErrorAction, the
  cancel-order mutation callbacks, the payment-creation success callbacks,
  the WebSocket message handler, the deadline-timer effect, and the
  WebSocket reconnection handlers.

Stateful React code is embedded as explicit state-passing functions: each
event handler becomes a function from state to state, and traces of events
are folds over event lists.
-/

namespace FlickKiosk

/-! ## Cart store (stores/cart) -/

structure CartItem where
  id : Nat
  name : String
  price : Int
  quantity : Int
deriving DecidableEq, Repr

structure Product where
  id : Nat
  name : String
  price : Int
deriving DecidableEq, Repr

/-- addItem from the cart store: if a line with the product id exists its
quantity is incremented, otherwise a new line with quantity 1 is appended. -/
def addItem (items : List CartItem) (product : Product) : List CartItem :=
  if (items.find? (fun item => item.id = product.id)).isSome then
    items.map (fun item =>
      if item.id = product.id then { item with quantity := item.quantity + 1 } else item)
  else
    items ++ [{ id := product.id, name := product.name,
                price := product.price, quantity := 1 }]

/-- updateQuantity from the cart store: quantity less or equal 0 removes the
line, otherwise the line's quantity is replaced. -/
def updateQuantity (items : List CartItem) (id : Nat) (quantity : Int) : List CartItem :=
  if quantity ≤ 0 then
    items.filter (fun item => item.id ≠ id)
  else
    items.map (fun item => if item.id = id then { item with quantity := quantity } else item)

/-- clearCart from the cart store: empties the collection. -/
def clearCart : List CartItem := []

/-- getTotalAmount from the cart store: fold of price times quantity. -/
def getTotalAmount (items : List CartItem) : Int :=
  items.foldl (fun total item => total + item.price * item.quantity) 0

/-- getTotalItems from the cart store: fold of the quantities. -/
def getTotalItems (items : List CartItem) : Int :=
  items.foldl (fun total item => total + item.quantity) 0

/-! ## Shared UI primitives of PaymentScreen (pages/qr-scanner.tsx) -/

inductive NoteKind where
  | success
  | error
  | info
deriving DecidableEq, Repr

/-- NotificationType from PaymentScreen. -/
structure NotificationType where
  type : NoteKind
  message : String
  submessage : Option String := none
deriving DecidableEq, Repr

/-- JavaScript truthiness choice for strings, as in the expression
a OR-ELSE b: a missing value and the empty string are falsy. -/
def jsOrString (a : Option String) (b : String) : String :=
  match a with
  | none => b
  | some s => if s = "" then b else s

/-! ## Student-id validation (PaymentScreen.validateStudentId) -/

def digitsVal (cs : List Char) : Nat :=
  cs.foldl (fun acc c => acc * 10 + (c.toNat - 48)) 0

/-- JavaScript parseInt with radix 10: leading whitespace is skipped, an
optional sign is consumed, then the longest leading run of digits gives the
value; an empty digit run yields NaN, modelled as none. -/
def jsParseInt (s : String) : Option Int :=
  match s.toList.dropWhile Char.isWhitespace with
  | '-' :: rest =>
      let ds := rest.takeWhile Char.isDigit
      if ds.isEmpty then none else some (-(digitsVal ds : Int))
  | '+' :: rest =>
      let ds := rest.takeWhile Char.isDigit
      if ds.isEmpty then none else some (digitsVal ds)
  | rest =>
      let ds := rest.takeWhile Char.isDigit
      if ds.isEmpty then none else some (digitsVal ds)

/-- validateStudentId from PaymentScreen: the id must have exactly 4
characters; its first character parses to a grade, its second to a room and
the substring from position 2 to a number, with grade and room in 1..9 and
number in 1..99 (NaN comparisons are false, modelled by the none case). -/
def validateStudentId (id : String) : Bool :=
  match id.toList with
  | [c0, c1, c2, c3] =>
      match jsParseInt (String.mk [c0]), jsParseInt (String.mk [c1]),
            jsParseInt (String.mk [c2, c3]) with
      | some grade, some room, some number =>
          decide (1 ≤ grade ∧ grade ≤ 9 ∧ 1 ≤ room ∧ room ≤ 9 ∧
                  1 ≤ number ∧ number ≤ 99)
      | _, _, _ => false
  | _ => false

/-- The validation rule as claim C7 words it: the id has length 4 and,
parsed as integers, its first character is a grade in 1..9, its second
character is a room in 1..9, and its last two characters form a number
in 1..99. -/
def claimStudentIdValid (id : String) : Prop :=
  id.toList.length = 4 ∧
  ∃ grade room number : Int,
    jsParseInt (String.mk (id.toList.take 1)) = some grade ∧
    jsParseInt (String.mk ((id.toList.drop 1).take 1)) = some room ∧
    jsParseInt (String.mk (id.toList.drop 2)) = some number ∧
    1 ≤ grade ∧ grade ≤ 9 ∧ 1 ≤ room ∧ room ≤ 9 ∧ 1 ≤ number ∧ number ≤ 99

/-- The observable effects of PaymentScreen.handleStudentIdSubmit: which
notification is shown and whether the student-id payment mutation starts. -/
structure SubmitOutcome where
  notification : Option NotificationType
  mutationStarted : Bool
deriving DecidableEq, Repr

/-- handleStudentIdSubmit from PaymentScreen: nothing when unmounted; an
info notification and no network call when validation fails; otherwise the
student-id payment mutation is started. -/
def handleStudentIdSubmit (isMounted : Bool) (studentId : String) : SubmitOutcome :=
  if !isMounted then { notification := none, mutationStarted := false }
  else if !validateStudentId studentId then
    { notification := some { type := .info, message := "올바른 학번 형식이 아닙니다" },
      mutationStarted := false }
  else
    { notification := none, mutationStarted := true }

/-- A cart mutation: the operations the spec's cart claims quantify over. -/
inductive CartOp where
  | add (product : Product)
  | update (id : Nat) (quantity : Int)
deriving DecidableEq, Repr

def applyCartOp (items : List CartItem) : CartOp → List CartItem
  | .add product => addItem items product
  | .update id quantity => updateQuantity items id quantity

/-- The cart state reached by a sequence of operations from the empty cart. -/
def runCartOps (ops : List CartOp) : List CartItem :=
  ops.foldl applyCartOp []

/-! ## Error-code mapping (PaymentScreen: ERROR_MESSAGES, mutation onError,
renderErrorAction) -/

/-- ERROR_MESSAGES from PaymentScreen: the static code-to-message table. -/
def ERROR_MESSAGES : List (String × String) :=
  [("ORDER_NOT_FOUND", "주문을 찾을 수 없습니다"),
   ("ORDER_NOT_PENDING", "이미 처리된 주문입니다"),
   ("USER_NOT_FOUND", "등록되지 않은 학번입니다"),
   ("BOOTH_NOT_FOUND", "부스 정보를 찾을 수 없습니다")]

/-- Lookup in ERROR_MESSAGES, none for a code outside the table. -/
def lookupErrorMessage (code : String) : Option String :=
  (ERROR_MESSAGES.find? (fun p => p.1 = code)).map Prod.snd

/-- The failure shapes distinguished by the payment-creation onError
callbacks: an HTTP error carrying a response body with an optional code
field, a timeout (ECONNABORTED) without a response body, and any other
error. -/
inductive PaymentCreateError where
  | serverError (code : Option String)
  | timeout
  | other
deriving DecidableEq, Repr

/-- qrPaymentMutation.onError from PaymentScreen, as the resulting
(errorCode, errorMessage) pair: a response code is always recorded; the
message comes from ERROR_MESSAGES when the code is in the table and
otherwise falls back to the generic creation-failure message; a timeout
maps to the timeout message. -/
def qrPaymentOnError : PaymentCreateError → Option String × String
  | .serverError (some code) =>
      (some code, (lookupErrorMessage code).getD "결제 요청을 생성할 수 없습니다")
  | .serverError none => (none, "결제 요청을 생성할 수 없습니다")
  | .timeout => (none, "서버 응답 시간 초과")
  | .other => (none, "결제 요청을 생성할 수 없습니다")

/-- The action offered from the failure display. -/
inductive ErrorAction where
  | backToProducts
  | retry
deriving DecidableEq, Repr

/-- renderErrorAction from PaymentScreen: no action without an error code;
ORDER_NOT_PENDING and ORDER_NOT_FOUND offer the back-to-products button;
every other code offers the retry button. -/
def renderErrorAction : Option String → Option ErrorAction
  | none => none
  | some code =>
      if code = "ORDER_NOT_PENDING" ∨ code = "ORDER_NOT_FOUND" then
        some .backToProducts
      else
        some .retry

/-! ## Push-channel manager (PaymentScreen: connectWebSocket, ws.onopen,
ws.onclose, the scheduled reconnect timeout, handleReconnectWebSocket) -/

def WS_RECONNECT_DELAY : Nat := 3000
def MAX_RECONNECT_ATTEMPTS : Nat := 3

inductive WsStatus where
  | CONNECTING
  | CONNECTED
  | DISCONNECTED
  | FAILED
deriving DecidableEq, Repr

/-- The push-channel manager state: the isMounted ref, the wsStatus React
state, the wsReconnectAttemptsRef ref, the wsReconnectTimeoutRef ref
(pendingReconnect holds the delay of the scheduled reconnect, none when no
timeout is pending), the current request id, and a count of WebSocket
constructions (connection attempts actually opened). -/
structure WsState where
  isMounted : Bool
  wsStatus : WsStatus
  attempts : Nat
  pendingReconnect : Option Nat
  requestId : Option Nat
  opens : Nat
deriving DecidableEq, Repr

/-- connectWebSocket from PaymentScreen: a no-op without a request id or
while unmounted, CONNECTING or CONNECTED; otherwise the status becomes
CONNECTING and a new WebSocket is constructed. -/
def connectWebSocket (s : WsState) : WsState :=
  if s.requestId.isNone ∨ !s.isMounted then s
  else if s.wsStatus = .CONNECTING ∨ s.wsStatus = .CONNECTED then s
  else { s with wsStatus := .CONNECTING, opens := s.opens + 1 }

/-- ws.onopen from PaymentScreen: when mounted, the status becomes
CONNECTED and the reconnect-attempt counter resets to 0. -/
def wsOnOpen (s : WsState) : WsState :=
  if s.isMounted then { s with wsStatus := .CONNECTED, attempts := 0 } else s

/-- ws.onclose from PaymentScreen: nothing when unmounted or on a clean
close; an unclean close sets DISCONNECTED and, when fewer than
MAX_RECONNECT_ATTEMPTS attempts were made and a request id exists, clears
any pending reconnect timeout and schedules exactly one reconnect after
min(WS_RECONNECT_DELAY * (attempts + 1), 10000) milliseconds; otherwise
the status becomes FAILED. -/
def wsOnClose (s : WsState) (wasClean : Bool) : WsState :=
  if !s.isMounted then s
  else if wasClean then s
  else
    let s1 := { s with wsStatus := WsStatus.DISCONNECTED }
    if s1.attempts < MAX_RECONNECT_ATTEMPTS ∧ s1.requestId.isSome ∧ s1.isMounted then
      let delay := min (WS_RECONNECT_DELAY * (s1.attempts + 1)) 10000
      { s1 with pendingReconnect := some delay }
    else
      { s1 with wsStatus := WsStatus.FAILED }

/-- The scheduled reconnect timeout firing: the pending handle is consumed;
when mounted the attempt counter increments and connectWebSocket runs. -/
def wsReconnectFire (s : WsState) : WsState :=
  match s.pendingReconnect with
  | none => s
  | some _ =>
      let s1 := { s with pendingReconnect := none }
      if s1.isMounted then connectWebSocket { s1 with attempts := s1.attempts + 1 }
      else s1

/-- handleReconnectWebSocket from PaymentScreen: when mounted, the attempt
counter resets to 0 and connectWebSocket runs once. -/
def handleReconnectWebSocket (s : WsState) : WsState :=
  if s.isMounted then connectWebSocket { s with attempts := 0 } else s

/-- The externally triggered events of the push-channel manager. -/
inductive WsEvent where
  | opened
  | closed (wasClean : Bool)
  | fire
  | manualReconnect
deriving DecidableEq, Repr

def wsStep (s : WsState) : WsEvent → WsState
  | .opened => wsOnOpen s
  | .closed wasClean => wsOnClose s wasClean
  | .fire => wsReconnectFire s
  | .manualReconnect => handleReconnectWebSocket s

def wsRun (s : WsState) (events : List WsEvent) : WsState :=
  events.foldl wsStep s

/-- A mounted manager with an open connection for request id 1 and no
reconnection history. -/
def wsConnected0 : WsState :=
  { isMounted := true, wsStatus := .CONNECTED, attempts := 0,
    pendingReconnect := none, requestId := some 1, opens := 1 }

/-- Four consecutive unclean closes: the initial connection and each of
the three scheduled reconnects close uncleanly, each scheduled reconnect
firing in between. -/
def fourUncleanCloses : List WsEvent :=
  [.closed false, .fire, .closed false, .fire, .closed false, .fire, .closed false]

/-! ## Payment session (PaymentScreen: timer effect, ws.onmessage,
handleCancel, cancelOrderMutation callbacks) -/

inductive PayStatus where
  | PENDING
  | COMPLETED
  | FAILED
  | EXPIRED
  | CANCELLED
deriving DecidableEq, Repr

/-- The PaymentScreen session state relevant to the timer, channel-message
and cancellation handlers: the isMounted ref; the payment store's status,
isActive and timer fields; the number of times cancelOrderMutation.mutate
was started; the visible notification; the cart; and the navigation
target. -/
structure SessionState where
  isMounted : Bool
  status : PayStatus
  isActive : Bool
  timer : Int
  cancelCalls : Nat
  notification : Option NotificationType
  cart : List CartItem
  nav : Option String
deriving DecidableEq, Repr

/-- Modelled from the spec: setStatus of the payment store (stores/payment
is not among the sources). Per the data model, PENDING is the only
non-terminal status and isActive reports whether the session is still
active, so setting a status updates isActive accordingly. -/
def setStatus (s : SessionState) (st : PayStatus) : SessionState :=
  { s with status := st, isActive := decide (st = PayStatus.PENDING) }

/-- Modelled from the spec: cancelPayment of the payment store (stores/
payment is not among the sources) clears the payment session; order
cancellation leads to CANCELLED and the session stops being active. -/
def cancelPayment (s : SessionState) : SessionState :=
  { s with status := PayStatus.CANCELLED, isActive := false, timer := 0 }

/-- showNotification from PaymentScreen: when mounted, any pending
auto-dismiss is cancelled and the notification is replaced by the new
one. -/
def showNotification (s : SessionState) (type : NoteKind) (message : String)
    (submessage : Option String := none) : SessionState :=
  if s.isMounted then
    { s with notification := some { type := type, message := message,
                                    submessage := submessage } }
  else s

/-- handleCancel from PaymentScreen: when mounted, the cancel-order
mutation is started. -/
def handleCancel (s : SessionState) : SessionState :=
  if s.isMounted then { s with cancelCalls := s.cancelCalls + 1 } else s

/-- ws.onmessage from PaymentScreen, on a frame that parsed to the given
status string and optional message field. -/
def wsOnMessage (s : SessionState) (status : String) (message : Option String) :
    SessionState :=
  if !s.isMounted then s
  else if status = "COMPLETED" then setStatus s .COMPLETED
  else if status = "FAILED" then
    showNotification (setStatus s .FAILED) .error "결제 실패"
      (some (jsOrString message "결제가 실패했습니다."))
  else if status = "EXPIRED" then
    handleCancel (showNotification (setStatus s .EXPIRED) .error
      "결제 시간이 초과되었습니다.")
  else s

/-- One run of the PaymentScreen timer effect body: while active with time
left it (re)starts the interval, with no session-state change; at zero
while active and mounted it invokes handleCancel; a COMPLETED status
additionally navigates to the payment-complete screen. -/
def timerEffectRun (s : SessionState) : SessionState :=
  let s1 :=
    if s.isActive ∧ s.timer > 0 then s
    else if s.timer ≤ 0 ∧ s.isActive ∧ s.isMounted then handleCancel s
    else s
  if s.status = PayStatus.COMPLETED ∧ s.isMounted then
    { s1 with nav := some "/payment-complete" }
  else s1

/-- The outcomes of the cancel-order HTTP call distinguished by
cancelOrderMutation's callbacks. -/
inductive CancelOutcome where
  | success
  | httpError (code : Option String)
  | otherError
deriving DecidableEq, Repr

/-- cancelOrderMutation's onError followed by onSettled, as react-query
runs them on completion of the cancellation call: an error shows a
notification whose message comes from ERROR_MESSAGES when the response
carries a known code and is generic otherwise; then, for every outcome,
onSettled clears the payment session, clears the cart and navigates to the
product listing. -/
def cancelMutationComplete (s : SessionState) (outcome : CancelOutcome) :
    SessionState :=
  let s1 :=
    match outcome with
    | .success => s
    | .httpError code =>
        if s.isMounted then
          showNotification s .error
            ((code.bind lookupErrorMessage).getD "주문 취소 중 오류가 발생했습니다")
        else s
    | .otherError =>
        if s.isMounted then
          showNotification s .error "주문 취소 중 오류가 발생했습니다"
        else s
  if s1.isMounted then
    { cancelPayment s1 with cart := clearCart, nav := some "/products" }
  else s1

/-- A mounted active session whose deadline has just reached zero. -/
def zeroTimerSession : SessionState :=
  { isMounted := true, status := .PENDING, isActive := true, timer := 0,
    cancelCalls := 0, notification := none, cart := [], nav := none }

/-! ## Payment-creation success (PaymentScreen: qrPaymentMutation.onSuccess,
studentIdPaymentMutation.onSuccess) -/

/-- A successful payment-creation response body: id always present, token
and expiresAt optional (the expiry is modelled as epoch milliseconds; the
source keeps it as an ISO timestamp string). -/
structure PaymentResponse where
  id : Nat
  token : Option String
  expiresAt : Option Nat
deriving DecidableEq, Repr

/-- The arguments PaymentScreen passes to the payment store's
setPaymentRequest: request id, display token, status, method, expiry. -/
structure PaymentRequestState where
  requestId : Nat
  requestCode : String
  status : PayStatus
  requestMethod : String
  expiresAt : Nat
deriving DecidableEq, Repr

/-- qrPaymentMutation.onSuccess from PaymentScreen (now being the current
epoch-millisecond clock): stores the response id, the token or else the
empty string, status PENDING, method QR_CODE, and the response expiry or
else the default of now plus 15 minutes. -/
def qrPaymentOnSuccess (now : Nat) (data : PaymentResponse) : PaymentRequestState :=
  { requestId := data.id,
    requestCode := jsOrString data.token "",
    status := .PENDING,
    requestMethod := "QR_CODE",
    expiresAt := data.expiresAt.getD (now + 15 * 60 * 1000) }

/-- studentIdPaymentMutation.onSuccess from PaymentScreen: as the QR
variant, but the display token falls back to the typed student id and the
method is STUDENT_ID. -/
def studentIdPaymentOnSuccess (now : Nat) (studentId : String)
    (data : PaymentResponse) : PaymentRequestState :=
  { requestId := data.id,
    requestCode := jsOrString data.token studentId,
    status := .PENDING,
    requestMethod := "STUDENT_ID",
    expiresAt := data.expiresAt.getD (now + 15 * 60 * 1000) }

theorem foldl_add_eq_sum_map (f : CartItem → Int) (items : List CartItem) (a : Int) :
    items.foldl (fun total item => total + f item) a = a + (items.map f).sum := by
  induction items generalizing a with
  | nil => simp
  | cons x xs ih => simp [List.foldl_cons, ih, add_assoc]

theorem getTotalAmount_eq_sum (items : List CartItem) :
    getTotalAmount items = (items.map (fun item => item.price * item.quantity)).sum := by
  unfold getTotalAmount
  simpa using foldl_add_eq_sum_map (fun item => item.price * item.quantity) items 0

theorem getTotalItems_eq_sum (items : List CartItem) :
    getTotalItems items = (items.map (fun item => item.quantity)).sum := by
  unfold getTotalItems
  simpa using foldl_add_eq_sum_map (fun item => item.quantity) items 0

theorem applyCartOp_quantity (items : List CartItem) (op : CartOp)
    (h : ∀ item ∈ items, 1 ≤ item.quantity) :
    ∀ item ∈ applyCartOp items op, 1 ≤ item.quantity := by
  intro item hmem
  cases op with
  | add product =>
    simp only [applyCartOp, addItem] at hmem
    split at hmem
    · rcases List.mem_map.mp hmem with ⟨orig, horig, rfl⟩
      have hq := h orig horig
      split <;> simp <;> omega
    · rcases List.mem_append.mp hmem with hm | hm
      · exact h item hm
      · simp only [List.mem_singleton] at hm
        subst hm
        exact le_refl 1
  | update id quantity =>
    simp only [applyCartOp, updateQuantity] at hmem
    split at hmem
    · exact h item (List.mem_of_mem_filter hmem)
    · rcases List.mem_map.mp hmem with ⟨orig, horig, rfl⟩
      have hq := h orig horig
      split <;> simp <;> omega

theorem runCartOps_quantity (ops : List CartOp) :
    ∀ item ∈ runCartOps ops, 1 ≤ item.quantity := by
  suffices h : ∀ start : List CartItem, (∀ item ∈ start, 1 ≤ item.quantity) →
      ∀ item ∈ ops.foldl applyCartOp start, 1 ≤ item.quantity by
    exact h [] (by simp)
  induction ops with
  | nil => intro start hs; simpa using hs
  | cons op rest ih =>
    intro start hs
    exact ih (applyCartOp start op) (applyCartOp_quantity start op hs)

/-- C8: for every sequence of addItem and updateQuantity operations starting
from the empty cart, getTotalAmount equals the sum over current lines of
price times quantity and getTotalItems equals the sum over current lines of
quantity; the two-line scenario (price 1000 qty 2, price 500 qty 3) yields
total 3500 and item count 5. -/
theorem C8_cart_totals (ops : List CartOp) :
    getTotalAmount (runCartOps ops)
        = ((runCartOps ops).map (fun item => item.price * item.quantity)).sum ∧
    getTotalItems (runCartOps ops)
        = ((runCartOps ops).map (fun item => item.quantity)).sum ∧
    getTotalAmount (runCartOps
        [.add ⟨1, "A", 1000⟩, .add ⟨1, "A", 1000⟩,
         .add ⟨2, "B", 500⟩, .add ⟨2, "B", 500⟩, .add ⟨2, "B", 500⟩]) = 3500 ∧
    getTotalItems (runCartOps
        [.add ⟨1, "A", 1000⟩, .add ⟨1, "A", 1000⟩,
         .add ⟨2, "B", 500⟩, .add ⟨2, "B", 500⟩, .add ⟨2, "B", 500⟩]) = 5 :=
  ⟨getTotalAmount_eq_sum _, getTotalItems_eq_sum _, by decide, by decide⟩

/-- C9: the invariant that every cart line has quantity at least 1 is
preserved by every cart operation, so no cart state reachable from the
empty cart by addItem and updateQuantity contains a line with
quantity at most 0. -/
theorem C9_cart_quantity_invariant (ops : List CartOp) (item : CartItem)
    (hmem : item ∈ runCartOps ops) : 1 ≤ item.quantity ∧ ¬ item.quantity ≤ 0 := by
  have h := runCartOps_quantity ops item hmem
  exact ⟨h, by omega⟩

theorem C9_cart_quantity_invariant_witness :
    (⟨1, "A", 1000, 1⟩ : CartItem) ∈ runCartOps [.add ⟨1, "A", 1000⟩] ∧
    (1 ≤ (⟨1, "A", 1000, 1⟩ : CartItem).quantity ∧
      ¬ (⟨1, "A", 1000, 1⟩ : CartItem).quantity ≤ 0) :=
  ⟨by decide, C9_cart_quantity_invariant [.add ⟨1, "A", 1000⟩] ⟨1, "A", 1000, 1⟩ (by decide)⟩

theorem validateStudentId_iff (id : String) :
    validateStudentId id = true ↔ claimStudentIdValid id := by
  unfold validateStudentId claimStudentIdValid
  cases hl : id.toList with
  | nil => simp
  | cons c0 t0 =>
    cases t0 with
    | nil => simp
    | cons c1 t1 =>
      cases t1 with
      | nil => simp
      | cons c2 t2 =>
        cases t2 with
        | nil => simp
        | cons c3 t3 =>
          cases t3 with
          | cons c4 t4 => simp
          | nil =>
            simp only [List.take, List.drop, List.length_cons, List.length_nil]
            cases hg : jsParseInt (String.mk [c0]) with
            | none => simp
            | some grade =>
              cases hr : jsParseInt (String.mk [c1]) with
              | none => simp
              | some room =>
                cases hn : jsParseInt (String.mk [c2, c3]) with
                | none => simp
                | some number => simp

/-- C7: validateStudentId accepts exactly the length-4 identifiers whose
parsed grade and room lie in 1..9 and whose last two characters parse to a
number in 1..99; the identifiers 2314 and 9999 validate while 0099 and 5000
do not; and submitting an invalid identifier shows an info notification and
starts no network call. -/
theorem C7_validateStudentId (id : String)
    (hinvalid : validateStudentId id = false) :
    (∀ s, validateStudentId s = true ↔ claimStudentIdValid s) ∧
    validateStudentId "2314" = true ∧
    validateStudentId "9999" = true ∧
    validateStudentId "0099" = false ∧
    validateStudentId "5000" = false ∧
    handleStudentIdSubmit true id =
      { notification := some { type := .info, message := "올바른 학번 형식이 아닙니다" },
        mutationStarted := false } := by
  refine ⟨validateStudentId_iff, by decide, by decide, by decide, by decide, ?_⟩
  simp [handleStudentIdSubmit, hinvalid]

theorem C7_validateStudentId_witness :
    validateStudentId "0099" = false ∧
    handleStudentIdSubmit true "0099" =
      { notification := some { type := .info, message := "올바른 학번 형식이 아닙니다" },
        mutationStarted := false } :=
  ⟨by decide, (C7_validateStudentId "0099" (by decide)).2.2.2.2.2⟩

theorem connectWebSocket_attempts (s : WsState) :
    (connectWebSocket s).attempts = s.attempts := by
  unfold connectWebSocket
  split
  · rfl
  · split <;> rfl

/-- C3: on every unclean close with fewer than 3 attempts so far and a
request id present, exactly one reconnect is scheduled after
min(3000 ms * (attempts + 1), 10000 ms), replacing any pending schedule;
the scheduled reconnect firing increments the attempt counter; and a
successful open resets the attempt counter to 0. -/
theorem C3_reconnect_policy (s : WsState)
    (hmounted : s.isMounted = true)
    (hatt : s.attempts < MAX_RECONNECT_ATTEMPTS)
    (hreq : s.requestId.isSome) :
    wsOnClose s false =
      { s with wsStatus := WsStatus.DISCONNECTED,
               pendingReconnect :=
                 some (min (WS_RECONNECT_DELAY * (s.attempts + 1)) 10000) } ∧
    (wsReconnectFire (wsOnClose s false)).attempts = s.attempts + 1 ∧
    (∀ s2 : WsState, s2.isMounted = true → (wsOnOpen s2).attempts = 0) := by
  have hclose : wsOnClose s false =
      { s with wsStatus := WsStatus.DISCONNECTED,
               pendingReconnect :=
                 some (min (WS_RECONNECT_DELAY * (s.attempts + 1)) 10000) } := by
    unfold wsOnClose
    simp [hmounted, hatt, hreq]
  refine ⟨hclose, ?_, ?_⟩
  · rw [hclose]
    unfold wsReconnectFire
    simp [hmounted, connectWebSocket_attempts]
  · intro s2 h2
    unfold wsOnOpen
    simp [h2]

theorem C3_reconnect_policy_witness :
    wsConnected0.isMounted = true ∧
    wsConnected0.attempts < MAX_RECONNECT_ATTEMPTS ∧
    wsConnected0.requestId.isSome = true ∧
    (wsOnClose wsConnected0 false).pendingReconnect = some 3000 := by
  refine ⟨rfl, by decide, rfl, ?_⟩
  rw [(C3_reconnect_policy wsConnected0 rfl (by decide) rfl).1]
  decide

/-- C2 as stated is false: after 3 consecutive unclean closes (each
scheduled reconnect having fired in between) the manager is still
DISCONNECTED with a further automatic reconnect scheduled, not FAILED. -/
theorem C2_counterexample :
    (wsRun wsConnected0
        [.closed false, .fire, .closed false, .fire, .closed false]).wsStatus =
      WsStatus.DISCONNECTED ∧
    (wsRun wsConnected0
        [.closed false, .fire, .closed false, .fire, .closed false]).pendingReconnect =
      some 9000 :=
  ⟨rfl, rfl⟩

/-- C2 amended: the FAILED transition happens on the 4th consecutive
unclean close, that is after 3 failed reconnection attempts; no further
reconnect is scheduled there; and a manual reconnect resets the attempt
counter to 0 and performs exactly one new connection attempt. -/
theorem C2_amended :
    (wsRun wsConnected0 fourUncleanCloses).wsStatus = WsStatus.FAILED ∧
    (wsRun wsConnected0 fourUncleanCloses).pendingReconnect = none ∧
    (wsRun wsConnected0 fourUncleanCloses).attempts = 3 ∧
    (handleReconnectWebSocket (wsRun wsConnected0 fourUncleanCloses)).attempts = 0 ∧
    (handleReconnectWebSocket (wsRun wsConnected0 fourUncleanCloses)).wsStatus =
      WsStatus.CONNECTING ∧
    (handleReconnectWebSocket (wsRun wsConnected0 fourUncleanCloses)).opens =
      (wsRun wsConnected0 fourUncleanCloses).opens + 1 :=
  ⟨rfl, rfl, rfl, rfl, rfl, rfl⟩

/-- C1 as stated is false: when the timer-zero path fires first and a
channel EXPIRED event then arrives before the cancellation call settles,
the cancellation mutation is started a second time. -/
theorem C1_counterexample :
    (wsOnMessage (timerEffectRun zeroTimerSession) "EXPIRED" none).cancelCalls = 2 := by
  decide

/-- C1 amended: the timer-zero path starts the cancellation mutation once
while the session is active; a channel EXPIRED event that fires first
starts the mutation once and deactivates the session, so a subsequent
timer-zero evaluation does not start it again; but in the reverse order
the mutation is started twice. -/
theorem C1_amended (s : SessionState) (hmounted : s.isMounted = true)
    (hactive : s.isActive = true) (htimer : s.timer ≤ 0) :
    (timerEffectRun s).cancelCalls = s.cancelCalls + 1 ∧
    (timerEffectRun (wsOnMessage s "EXPIRED" none)).cancelCalls = s.cancelCalls + 1 := by
  have hnotpos : ¬ s.timer > 0 := by omega
  constructor
  · unfold timerEffectRun handleCancel
    split_ifs with h1 h2 h3 <;> simp_all
  · have hmsg : wsOnMessage s "EXPIRED" none =
        { s with status := PayStatus.EXPIRED, isActive := false,
                 notification := some { type := NoteKind.error,
                                        message := "결제 시간이 초과되었습니다." },
                 cancelCalls := s.cancelCalls + 1 } := by
      unfold wsOnMessage setStatus showNotification handleCancel
      simp [hmounted]
    rw [hmsg]
    unfold timerEffectRun
    simp

theorem C1_amended_witness :
    zeroTimerSession.isMounted = true ∧ zeroTimerSession.isActive = true ∧
    zeroTimerSession.timer ≤ 0 ∧
    ((timerEffectRun zeroTimerSession).cancelCalls =
        zeroTimerSession.cancelCalls + 1 ∧
     (timerEffectRun (wsOnMessage zeroTimerSession "EXPIRED" none)).cancelCalls =
        zeroTimerSession.cancelCalls + 1) :=
  ⟨rfl, rfl, by decide, C1_amended zeroTimerSession rfl rfl (by decide)⟩

/-- C4: a channel FAILED event sets the session status to FAILED and shows
a notification without starting order cancellation; a channel EXPIRED event
sets the status to EXPIRED, shows a notification and additionally starts
the order-cancellation call. -/
theorem C4_failed_vs_expired (s : SessionState) (message : Option String)
    (hmounted : s.isMounted = true) :
    (wsOnMessage s "FAILED" message).status = PayStatus.FAILED ∧
    (wsOnMessage s "FAILED" message).cancelCalls = s.cancelCalls ∧
    (wsOnMessage s "FAILED" message).notification =
      some { type := NoteKind.error, message := "결제 실패",
             submessage := some (jsOrString message "결제가 실패했습니다.") } ∧
    (wsOnMessage s "EXPIRED" message).status = PayStatus.EXPIRED ∧
    (wsOnMessage s "EXPIRED" message).cancelCalls = s.cancelCalls + 1 ∧
    (wsOnMessage s "EXPIRED" message).notification =
      some { type := NoteKind.error, message := "결제 시간이 초과되었습니다." } := by
  unfold wsOnMessage setStatus showNotification handleCancel
  simp [hmounted]

theorem C4_failed_vs_expired_witness :
    ({ isMounted := true, status := .PENDING, isActive := true, timer := 30,
       cancelCalls := 0, notification := none, cart := [],
       nav := none } : SessionState).isMounted = true ∧
    (wsOnMessage { isMounted := true, status := .PENDING, isActive := true,
                   timer := 30, cancelCalls := 0, notification := none,
                   cart := [], nav := none } "EXPIRED" none).cancelCalls = 0 + 1 :=
  ⟨rfl, (C4_failed_vs_expired
      { isMounted := true, status := .PENDING, isActive := true, timer := 30,
        cancelCalls := 0, notification := none, cart := [], nav := none }
      none rfl).2.2.2.2.1⟩

/-- C5: for every outcome of the cancel-order call the same local cleanup
runs - the payment session is cleared, the cart is cleared and navigation
goes to the product listing - and a failing call additionally shows an
error notification without blocking that cleanup. -/
theorem C5_cancel_cleanup (s : SessionState) (outcome : CancelOutcome)
    (hmounted : s.isMounted = true) :
    (cancelMutationComplete s outcome).status = PayStatus.CANCELLED ∧
    (cancelMutationComplete s outcome).isActive = false ∧
    (cancelMutationComplete s outcome).cart = clearCart ∧
    (cancelMutationComplete s outcome).nav = some "/products" ∧
    (∀ code : Option String,
      (cancelMutationComplete s (CancelOutcome.httpError code)).notification =
        some { type := NoteKind.error,
               message := (code.bind lookupErrorMessage).getD
                 "주문 취소 중 오류가 발생했습니다" }) := by
  unfold cancelMutationComplete cancelPayment showNotification clearCart
  cases outcome <;> simp [hmounted]

theorem C5_cancel_cleanup_witness :
    ({ isMounted := true, status := .PENDING, isActive := true, timer := 30,
       cancelCalls := 0, notification := none, cart := [],
       nav := none } : SessionState).isMounted = true ∧
    (cancelMutationComplete
      { isMounted := true, status := .PENDING, isActive := true, timer := 30,
        cancelCalls := 0, notification := none, cart := [], nav := none }
      CancelOutcome.success).nav = some "/products" :=
  ⟨rfl, (C5_cancel_cleanup
      { isMounted := true, status := .PENDING, isActive := true, timer := 30,
        cancelCalls := 0, notification := none, cart := [], nav := none }
      CancelOutcome.success rfl).2.2.2.1⟩

/-- C6: payment-creation failure maps the server code through
ERROR_MESSAGES, any unknown or missing code falls back to the generic
message, and the failure display offers forced navigation exactly for
ORDER_NOT_FOUND and ORDER_NOT_PENDING and retry for every other code. -/
theorem C6_error_mapping (code : String)
    (hunknown : lookupErrorMessage code = none) :
    qrPaymentOnError (.serverError (some "ORDER_NOT_FOUND")) =
      (some "ORDER_NOT_FOUND", "주문을 찾을 수 없습니다") ∧
    qrPaymentOnError (.serverError (some "ORDER_NOT_PENDING")) =
      (some "ORDER_NOT_PENDING", "이미 처리된 주문입니다") ∧
    qrPaymentOnError (.serverError (some "USER_NOT_FOUND")) =
      (some "USER_NOT_FOUND", "등록되지 않은 학번입니다") ∧
    qrPaymentOnError (.serverError (some "BOOTH_NOT_FOUND")) =
      (some "BOOTH_NOT_FOUND", "부스 정보를 찾을 수 없습니다") ∧
    qrPaymentOnError (.serverError (some code)) =
      (some code, "결제 요청을 생성할 수 없습니다") ∧
    qrPaymentOnError (.serverError none) = (none, "결제 요청을 생성할 수 없습니다") ∧
    renderErrorAction (some "ORDER_NOT_FOUND") = some ErrorAction.backToProducts ∧
    renderErrorAction (some "ORDER_NOT_PENDING") = some ErrorAction.backToProducts ∧
    (∀ c : String, c ≠ "ORDER_NOT_FOUND" → c ≠ "ORDER_NOT_PENDING" →
      renderErrorAction (some c) = some ErrorAction.retry) := by
  refine ⟨by decide, by decide, by decide, by decide, ?_, by decide,
          by decide, by decide, ?_⟩
  · simp [qrPaymentOnError, hunknown]
  · intro c h1 h2
    simp [renderErrorAction, h1, h2]

theorem C6_error_mapping_witness :
    lookupErrorMessage "SOME_OTHER_CODE" = none ∧
    qrPaymentOnError (.serverError (some "SOME_OTHER_CODE")) =
      (some "SOME_OTHER_CODE", "결제 요청을 생성할 수 없습니다") :=
  ⟨by decide, (C6_error_mapping "SOME_OTHER_CODE" (by decide)).2.2.2.2.1⟩

/-- C10: a successful creation response without expiresAt yields the
default expiry of now plus 15 minutes for either method; one without a
token yields the empty string as the QR display token and the typed
student id as the student-id display token. -/
theorem C10_success_defaults (now : Nat) (studentId : String)
    (data : PaymentResponse)
    (hexp : data.expiresAt = none) (htok : data.token = none) :
    (qrPaymentOnSuccess now data).expiresAt = now + 15 * 60 * 1000 ∧
    (studentIdPaymentOnSuccess now studentId data).expiresAt = now + 15 * 60 * 1000 ∧
    (qrPaymentOnSuccess now data).requestCode = "" ∧
    (studentIdPaymentOnSuccess now studentId data).requestCode = studentId := by
  unfold qrPaymentOnSuccess studentIdPaymentOnSuccess jsOrString
  simp [hexp, htok]

theorem C10_success_defaults_witness :
    (⟨7, none, none⟩ : PaymentResponse).expiresAt = none ∧
    (⟨7, none, none⟩ : PaymentResponse).token = none ∧
    ((qrPaymentOnSuccess 1000 ⟨7, none, none⟩).expiresAt = 1000 + 15 * 60 * 1000 ∧
     (studentIdPaymentOnSuccess 1000 "2314" ⟨7, none, none⟩).expiresAt =
        1000 + 15 * 60 * 1000 ∧
     (qrPaymentOnSuccess 1000 ⟨7, none, none⟩).requestCode = "" ∧
     (studentIdPaymentOnSuccess 1000 "2314" ⟨7, none, none⟩).requestCode = "2314") :=
  ⟨rfl, rfl, C10_success_defaults 1000 "2314" ⟨7, none, none⟩ rfl rfl⟩

end FlickKiosk
